import Mathlib

/-!
Verification of the card-layout displacement-mesh pipeline in
src/services/blender_starter_pack.py.

The pipeline is embedded shallowly over ℚ.  A mesh object is modelled at the
level the claims speak about: its world-space axis-aligned bounding box
together with the object origin (the Blender location), because scaling in
the source multiplies obj.scale and therefore scales world geometry about
the object origin, not about the bounding-box center.  Pieces are treated as
box-shaped solids, so boolean intersection and difference act on bounding
boxes exactly.  All lengths are meters unless a name says mm, mirroring the
unit bookkeeping of the source.
-/

namespace StarterPack

/-- A point or extent in 3-space, over ℚ (the source uses Python floats). -/
structure V3 where
  x : ℚ
  y : ℚ
  z : ℚ
deriving DecidableEq, Repr

/-- Mesh object state: Blender object origin (location) plus the world-space
axis-aligned bounding box, as returned by world_aabb in the source. -/
structure Obj where
  loc : V3
  mn : V3
  mx : V3
deriving DecidableEq, Repr

def V3.add (a b : V3) : V3 := ⟨a.x + b.x, a.y + b.y, a.z + b.z⟩

/-- world_dims: componentwise mx - mn. -/
def world_dims (o : Obj) : V3 := ⟨o.mx.x - o.mn.x, o.mx.y - o.mn.y, o.mx.z - o.mn.z⟩

/-- Translating a Blender object moves its location and its world geometry
by the same vector. -/
def translate (o : Obj) (d : V3) : Obj := ⟨o.loc.add d, o.mn.add d, o.mx.add d⟩

/-- center_xy: translate so the XY bounding-box center is at the origin. -/
def center_xy (o : Obj) : Obj :=
  let cx := (o.mn.x + o.mx.x) / 2
  let cy := (o.mn.y + o.mx.y) / 2
  translate o ⟨-cx, -cy, 0⟩

/-- rest_on_z0: translate so the bounding-box minimum Z is 0. -/
def rest_on_z0 (o : Obj) : Obj := translate o ⟨0, 0, -o.mn.z⟩

/-- top_z of the world bounding box. -/
def top_z (o : Obj) : ℚ := o.mx.z

/-- bottom_z of the world bounding box. -/
def bottom_z (o : Obj) : ℚ := o.mn.z

/-- Multiplying obj.scale by s maps every world point p to loc + s * (p - loc):
scaling happens about the object origin, not the bounding-box center. -/
def scale_about_loc (o : Obj) (s : ℚ) : Obj :=
  { loc := o.loc
    mn := ⟨o.loc.x + s * (o.mn.x - o.loc.x), o.loc.y + s * (o.mn.y - o.loc.y),
           o.loc.z + s * (o.mn.z - o.loc.z)⟩
    mx := ⟨o.loc.x + s * (o.mx.x - o.loc.x), o.loc.y + s * (o.mx.y - o.loc.y),
           o.loc.z + s * (o.mx.z - o.loc.z)⟩ }

/-- uniform_fit from the source: short-circuit on near-zero X or Y dimension,
clamp the margin-shrunk targets (given in mm, converted to meters) to at
least 1e-6, scale by min of the per-axis ratios times size_boost, and return
the new object together with the post-scale Z dimension. -/
def uniform_fit (o : Obj) (target_w target_h margin size_boost : ℚ) : Obj × ℚ :=
  let eps : ℚ := 1 / 10 ^ 9
  let d := world_dims o
  if d.x < eps ∨ d.y < eps then (o, d.z)
  else
    let tw := max (1 / 10 ^ 6) (target_w / 1000 - 2 * margin / 1000)
    let th := max (1 / 10 ^ 6) (target_h / 1000 - 2 * margin / 1000)
    let scale_x := tw / max d.x eps
    let scale_y := th / max d.y eps
    let s := min scale_x scale_y * size_boost
    let o2 := scale_about_loc o s
    (o2, (world_dims o2).z)

/-- snap_bottom_to_base_top: move in Z only so the bottom of o sits on the top
of base plus the offset. -/
def snap_bottom_to_base_top (o base : Obj) (z_offset : ℚ) : Obj :=
  translate o ⟨0, 0, top_z base + z_offset - bottom_z o⟩

/-- sink_mesh_plane_into_card: push the object down so its bottom (the flat
mesh plane) sits at -sink_depth, inside the card.  The card_thickness argument
exists in the source signature but is unused in its body. -/
def sink_mesh_plane_into_card (o : Obj) (card_thickness sink_depth_mm : ℚ) : Obj :=
  let _ := card_thickness
  let sink_depth := sink_depth_mm / 1000
  translate o ⟨0, 0, -(bottom_z o - (-sink_depth))⟩

/- ============================================================
   CONFIGURATION constants of the source (mm unless noted).
   ============================================================ -/

def CARD_WIDTH : ℚ := 130
def CARD_HEIGHT : ℚ := 170
def CARD_THICKNESS : ℚ := 3
/-- UPPER_RATIO in the source: fraction of height for the text band. -/
def upper_ratio : ℚ := 15 / 100
/-- FIGURE_WIDTH_RATIO in the source. -/
def figure_width_ratio : ℚ := 3 / 5
/-- ACC_HEIGHT_RATIO in the source. -/
def acc_height_ratio : ℚ := 2 / 3
def MARGIN_FIGURE : ℚ := 5
def MARGIN_ACCESSORIES : ℚ := 3
def SIZE_BOOST_FIGURE : ℚ := 132 / 100
def SIZE_BOOST_ACCESSORIES : ℚ := 162 / 100
def MESH_PLANE_SINK_DEPTH : ℚ := 1
def TITLE_MAX_WIDTH : ℚ := 114
def TITLE_MAX_HEIGHT : ℚ := 117 / 10
def SUBTITLE_MAX_WIDTH : ℚ := 646 / 10
def SUBTITLE_MAX_HEIGHT : ℚ := 743 / 100
def TEXT_TOP_MARGIN : ℚ := 10
def TEXT_LIFT : ℚ := 1 / 10

/-- trim condition of trim_to_card_boundaries: the untrimmed world bounding
box extends outside the card footprint (card_width and card_height in m). -/
def trim_needed (o : Obj) (card_width card_height : ℚ) : Bool :=
  let card_half_w := card_width / 2
  let card_half_h := card_height / 2
  decide (o.mn.x < -card_half_w) || decide (o.mx.x > card_half_w) ||
    decide (o.mn.y < -card_half_h) || decide (o.mx.y > card_half_h)

/-- trim_to_card_boundaries: when the bounding box extends outside the card
footprint, boolean-intersect the piece with a box of exactly the card
footprint (the trim box covers the full Z range of the piece); otherwise skip
the boolean and return the piece untouched.  On a box-shaped solid the
intersection clips the bounding box to the footprint, or yields an empty mesh
(whose Blender bounding box collapses to the origin) when disjoint.  The
returned flag records whether the boolean was performed. -/
def trim_to_card_boundaries (o : Obj) (card_width card_height : ℚ) : Obj × Bool :=
  if trim_needed o card_width card_height then
    let card_half_w := card_width / 2
    let card_half_h := card_height / 2
    if o.mx.x < -card_half_w ∨ o.mn.x > card_half_w ∨
        o.mx.y < -card_half_h ∨ o.mn.y > card_half_h then
      ({ loc := o.loc, mn := ⟨0, 0, 0⟩, mx := ⟨0, 0, 0⟩ }, true)
    else
      ({ loc := o.loc,
         mn := ⟨max o.mn.x (-card_half_w), max o.mn.y (-card_half_h), o.mn.z⟩,
         mx := ⟨min o.mx.x card_half_w, min o.mx.y card_half_h, o.mx.z⟩ }, true)
  else (o, false)

/-- cut_below_card: skip when the bottom is at or above the card bottom
plane; otherwise boolean-difference away a cutter slab spanning z from
card_bottom - 0.2 to card_bottom (a unit cube at z = card_bottom - 0.1
scaled to height 0.2, wide enough in XY to cover the piece).  On a
box-shaped solid the difference removes the z-range of the slab; an empty
result collapses to the origin.  The flag records whether the boolean was
performed. -/
def cut_below_card (o : Obj) (card_thickness : ℚ) : Obj × Bool :=
  let card_bottom_z := -card_thickness
  if card_bottom_z ≤ bottom_z o then (o, false)
  else
    let cutter_lo := card_bottom_z - 1 / 5
    if o.mn.z < cutter_lo then
      if o.mx.z ≤ card_bottom_z then
        ({ o with mx := ⟨o.mx.x, o.mx.y, min o.mx.z cutter_lo⟩ }, true)
      else (o, true)
    else
      if o.mx.z ≤ card_bottom_z then
        ({ loc := o.loc, mn := ⟨0, 0, 0⟩, mx := ⟨0, 0, 0⟩ }, true)
      else ({ o with mn := ⟨o.mn.x, o.mn.y, card_bottom_z⟩ }, true)

/- ============================================================
   Layout engine.
   ============================================================ -/

/-- Output of calculate_layout.  Slot sizes are in mm (converted back for
uniform_fit), centers in meters, exactly as the source returns them. -/
structure Layout where
  card_w : ℚ
  card_h : ℚ
  fig_slot_w : ℚ
  fig_slot_h : ℚ
  fig_x : ℚ
  fig_y : ℚ
  acc_slot_w : ℚ
  acc_cell_h : ℚ
  acc_x : ℚ
  acc_centers_y : Fin 3 → ℚ

/-- calculate_layout from the source: text band on top, figure column on the
left 3/5, accessory column on the right 2/5 with a stack of three cells of
total height 2/3 of the card height, vertically centered in the lower band. -/
def calculate_layout : Layout :=
  let card_w := CARD_WIDTH / 1000
  let card_h := CARD_HEIGHT / 1000
  let H_upper := card_h * upper_ratio
  let H_lower := card_h - H_upper
  let W_left := card_w * figure_width_ratio
  let W_right := card_w - W_left
  let lower_y_min := -card_h / 2
  let lower_y_max := lower_y_min + H_lower
  let lower_y_center := (lower_y_min + lower_y_max) / 2
  let fig_slot_w := W_left
  let fig_slot_h := H_lower
  let acc_slot_w := W_right
  let acc_slot_h := card_h * acc_height_ratio
  let acc_cell_h := acc_slot_h / 3
  let left_x_center := -card_w / 2 + fig_slot_w / 2
  let right_x_center := card_w / 2 - acc_slot_w / 2
  let acc_y_center := lower_y_center
  let start_y := acc_y_center + acc_slot_h / 2 - acc_cell_h / 2
  { card_w := card_w
    card_h := card_h
    fig_slot_w := fig_slot_w * 1000
    fig_slot_h := fig_slot_h * 1000
    fig_x := left_x_center
    fig_y := lower_y_center
    acc_slot_w := acc_slot_w * 1000
    acc_cell_h := acc_cell_h * 1000
    acc_x := right_x_center
    acc_centers_y := fun i => start_y - (i : ℕ) * acc_cell_h }

/-- create_base_plate: after transform_apply the card has its origin at the
world origin, top surface at Z = 0, bottom at -thickness. -/
def create_base_plate : Obj :=
  let w := CARD_WIDTH / 1000
  let h := CARD_HEIGHT / 1000
  let t := CARD_THICKNESS / 1000
  { loc := ⟨0, 0, 0⟩, mn := ⟨-w / 2, -h / 2, -t⟩, mx := ⟨w / 2, h / 2, 0⟩ }

/- ============================================================
   Placement pipeline.
   ============================================================ -/

/-- Placement record: bounding-box center (x, y) and (width, height), in mm,
as captured for the Print-Texture Compositor. -/
structure PlacementRecord where
  pos : ℚ × ℚ
  dims : ℚ × ℚ
deriving DecidableEq, Repr

/-- The record main builds from a positioned object (world_aabb center and
obj.dimensions, both converted to mm). -/
def record_of_object (o : Obj) : PlacementRecord :=
  { pos := ((o.mn.x + o.mx.x) / 2 * 1000, (o.mn.y + o.mx.y) / 2 * 1000)
    dims := ((world_dims o).x * 1000, (world_dims o).y * 1000) }

/-- position_figure: center, rest on Z=0, uniform-fit into the figure slot,
re-center, translate to the slot center (the source assigns obj.location, so
the geometry moves by the difference with the current location), snap onto
the card, sink the mesh plane, capture the pre-trim record, then trim to the
card boundaries and cut below the card.  Returns the final object, its top Z
and the captured pre-trim record. -/
def position_figure (figure card : Obj) (layout : Layout) : Obj × ℚ × PlacementRecord :=
  let f1 := center_xy figure
  let f2 := rest_on_z0 f1
  let f3 := (uniform_fit f2 layout.fig_slot_w layout.fig_slot_h MARGIN_FIGURE SIZE_BOOST_FIGURE).1
  let f4 := center_xy f3
  let f5 := translate f4 ⟨layout.fig_x - f4.loc.x, layout.fig_y - f4.loc.y, 0⟩
  let f6 := snap_bottom_to_base_top f5 card 0
  let f7 := sink_mesh_plane_into_card f6 (CARD_THICKNESS / 1000) MESH_PLANE_SINK_DEPTH
  let pre_trim := record_of_object f7
  let f8 := (trim_to_card_boundaries f7 (CARD_WIDTH / 1000) (CARD_HEIGHT / 1000)).1
  let f9 := (cut_below_card f8 (CARD_THICKNESS / 1000)).1
  (f9, top_z f9, pre_trim)

/-- position_accessory: same chain as position_figure with the accessory
slot, margin and boost, indexed cell center, and no pre-trim capture. -/
def position_accessory (acc card : Obj) (layout : Layout) (i : Fin 3) : Obj :=
  let a1 := center_xy acc
  let a2 := rest_on_z0 a1
  let a3 := (uniform_fit a2 layout.acc_slot_w layout.acc_cell_h MARGIN_ACCESSORIES SIZE_BOOST_ACCESSORIES).1
  let a4 := center_xy a3
  let a5 := translate a4 ⟨layout.acc_x - a4.loc.x, layout.acc_centers_y i - a4.loc.y, 0⟩
  let a6 := snap_bottom_to_base_top a5 card 0
  let a7 := sink_mesh_plane_into_card a6 (CARD_THICKNESS / 1000) MESH_PLANE_SINK_DEPTH
  let a8 := (trim_to_card_boundaries a7 (CARD_WIDTH / 1000) (CARD_HEIGHT / 1000)).1
  let a9 := (cut_below_card a8 (CARD_THICKNESS / 1000)).1
  a9

/-- The spec notion of the pre-trim moment for the figure: the state after
centering, fitting, translation to the cell, snapping and sinking, before
any boolean trim.  Stated from the spec wording in section 4.4 step 7, for
comparison with what position_figure captures. -/
def fig_pre_trim_state (figure card : Obj) (layout : Layout) : Obj :=
  let f1 := center_xy figure
  let f2 := rest_on_z0 f1
  let f3 := (uniform_fit f2 layout.fig_slot_w layout.fig_slot_h MARGIN_FIGURE SIZE_BOOST_FIGURE).1
  let f4 := center_xy f3
  let f5 := translate f4 ⟨layout.fig_x - f4.loc.x, layout.fig_y - f4.loc.y, 0⟩
  let f6 := snap_bottom_to_base_top f5 card 0
  sink_mesh_plane_into_card f6 (CARD_THICKNESS / 1000) MESH_PLANE_SINK_DEPTH

/-- The spec notion of the pre-trim placement record for an accessory: the
bounding-box center and dimensions at the moment after sinking and before
the boolean trim, per section 4.4 step 7 of the spec.  The source never
computes this for accessories; it is defined here to compare against the
record the source actually passes to the compositor. -/
def acc_pre_trim_record (acc card : Obj) (layout : Layout) (i : Fin 3) : PlacementRecord :=
  let a1 := center_xy acc
  let a2 := rest_on_z0 a1
  let a3 := (uniform_fit a2 layout.acc_slot_w layout.acc_cell_h MARGIN_ACCESSORIES SIZE_BOOST_ACCESSORIES).1
  let a4 := center_xy a3
  let a5 := translate a4 ⟨layout.acc_x - a4.loc.x, layout.acc_centers_y i - a4.loc.y, 0⟩
  let a6 := snap_bottom_to_base_top a5 card 0
  let a7 := sink_mesh_plane_into_card a6 (CARD_THICKNESS / 1000) MESH_PLANE_SINK_DEPTH
  record_of_object a7

/- ============================================================
   Text.
   ============================================================ -/

/-- scale_text_to_fit: uniformly scale the text object down (never up) so its
XY dimensions in mm fit within the given maxima; degenerate dimensions return
unchanged.  Returns the object and its final dimensions in mm. -/
def scale_text_to_fit (o : Obj) (max_width_mm max_height_mm : ℚ) : Obj × ℚ × ℚ :=
  let current_w := (world_dims o).x * 1000
  let current_h := (world_dims o).y * 1000
  if current_w ≤ 0 ∨ current_h ≤ 0 then (o, current_w, current_h)
  else
    let scale_w := if 0 < current_w then max_width_mm / current_w else 1
    let scale_h := if 0 < current_h then max_height_mm / current_h else 1
    let scale := min (min scale_w scale_h) 1
    let o2 := if scale < 1 then scale_about_loc o scale else o
    (o2, (world_dims o2).x * 1000, (world_dims o2).y * 1000)

/-- add_title_and_subtitle: fit each present text into its maximum box, then
position absolutely: title centered at x = 0, its center top_margin plus half
its height below the card top edge, lifted by TEXT_LIFT; the subtitle sits a
2 mm gap below the title, or takes the title position when there is no
title.  Text curves are created with CENTER alignment, so the object origin
is assumed at the bounding-box center by the source positioning code. -/
def add_title_and_subtitle (title0 sub0 : Option Obj) : Option Obj × Option Obj :=
  let fitted_title := title0.map fun t => (scale_text_to_fit t TITLE_MAX_WIDTH TITLE_MAX_HEIGHT).1
  let fitted_sub := sub0.map fun s2 => (scale_text_to_fit s2 SUBTITLE_MAX_WIDTH SUBTITLE_MAX_HEIGHT).1
  let title_height := match fitted_title with
    | some t => (world_dims t).y
    | none => 0
  let sub_height := match fitted_sub with
    | some s2 => (world_dims s2).y
    | none => 0
  let gap : ℚ := 2 / 1000
  let top_margin := TEXT_TOP_MARGIN / 1000
  let card_top_y := CARD_HEIGHT / 2 / 1000
  let place := fun (o : Obj) (x y z : ℚ) =>
    translate o ⟨x - o.loc.x, y - o.loc.y, z - o.loc.z⟩
  let positioned_title := fitted_title.map fun t =>
    place t 0 (card_top_y - top_margin - title_height / 2) (TEXT_LIFT / 1000)
  let positioned_sub := fitted_sub.map fun s2 =>
    match positioned_title with
    | some t => place s2 0 (t.loc.y - title_height / 2 - gap - sub_height / 2) (TEXT_LIFT / 1000)
    | none => place s2 0 (card_top_y - top_margin - sub_height / 2) (TEXT_LIFT / 1000)
  (positioned_title, positioned_sub)

/- ============================================================
   Export and print texture.
   ============================================================ -/

/-- Bounding box of the union of two boxes. -/
def box_union (a b : Obj) : Obj :=
  { loc := a.loc
    mn := ⟨min a.mn.x b.mn.x, min a.mn.y b.mn.y, min a.mn.z b.mn.z⟩
    mx := ⟨max a.mx.x b.mx.x, max a.mx.y b.mx.y, max a.mx.z b.mx.z⟩ }

/-- export_stl joins the card, the figure (when present), the accessories
and the converted text objects into one mesh and writes it with
global_scale 1000 (meters to mm).  Modelled as the bounding box of the
joined mesh, in mm: decimation collapses existing geometry and does not
extend the bounding box.  Returns (mn, mx) in mm. -/
def export_stl_bbox_mm (card : Obj) (figure : Option Obj) (accessories : List Obj)
    (text_objects : List Obj) : V3 × V3 :=
  let objs := figure.toList ++ accessories ++ text_objects
  let joined := objs.foldl box_union card
  (⟨joined.mn.x * 1000, joined.mn.y * 1000, joined.mn.z * 1000⟩,
   ⟨joined.mx.x * 1000, joined.mx.y * 1000, joined.mx.z * 1000⟩)

/-- Python int(): truncation toward zero. -/
def pyInt (q : ℚ) : ℤ := if q < 0 then -(⌊-q⌋) else ⌊q⌋

/-- Canvas size of create_uv_print_texture: int(card_mm / 25.4 * dpi) per
axis. -/
def create_uv_print_texture_canvas (dpi : ℚ) : ℤ × ℤ :=
  (pyInt (CARD_WIDTH / (254 / 10) * dpi), pyInt (CARD_HEIGHT / (254 / 10) * dpi))

/-- The DPI metadata embedded by canvas.save(texture_path, PNG, dpi=(dpi, dpi)). -/
def saved_texture_dpi (dpi : ℚ) : ℚ × ℚ := (dpi, dpi)

/- ============================================================
   Main.
   ============================================================ -/

/-- State of an image file on disk as seen by create_displaced_mesh. -/
inductive ImageFile where
  | missing
  | unreadable
  | ok
deriving DecidableEq, Repr

/-- create_displaced_mesh control flow for the depth input: a missing depth
file prints an error and returns None; a file that exists but cannot be
loaded makes the image loader raise, which propagates; otherwise the
displaced mesh is built.  The mesh argument abstracts the geometry of the
built displaced plane (a subdivided plane displaced by the depth image),
which the claims quantify over. -/
def create_displaced_mesh (depth : ImageFile) (mesh : Obj) : Except Unit (Option Obj) :=
  match depth with
  | .missing => .ok none
  | .unreadable => .error ()
  | .ok => .ok (some mesh)

/-- Inputs of main, restricted to what the claims depend on.  Accessory
inputs are None when the path arguments are absent or the files do not exist
(main skips those), and Some of the built displaced mesh otherwise. -/
structure MainArgs where
  figure_depth : ImageFile
  figure_mesh : Obj
  acc1 : Option Obj
  acc2 : Option Obj
  acc3 : Option Obj
  title : Option Obj
  subtitle : Option Obj
deriving DecidableEq, Repr

/-- Observable outcome of one main run: which artifacts were written, the
placement records passed to create_uv_print_texture, the exported STL
bounding box in mm, and the texture canvas and DPI metadata. -/
structure MainResult where
  blend_saved : Bool
  stl_exported : Bool
  texture_saved : Bool
  figure_pos : Option (ℚ × ℚ)
  figure_dims : Option (ℚ × ℚ)
  acc_records : List PlacementRecord
  stl_bbox_mm : V3 × V3
  texture_canvas : ℤ × ℤ
  texture_dpi : ℚ × ℚ
deriving DecidableEq, Repr

/-- The accessories positioned by the loop in main: each present accessory is
positioned with its loop index, absent ones are skipped. -/
def placed_accessories (card : Obj) (layout : Layout) (a1 a2 a3 : Option Obj) : List Obj :=
  ([(a1, (0 : Fin 3)), (a2, (1 : Fin 3)), (a3, (2 : Fin 3))]).filterMap fun p =>
    p.1.map fun m => position_accessory m card layout p.2

/-- main: compute the layout, build the base plate and the text, build and
position the figure (captured pre-trim record kept for the texture), build
and position the accessories (records taken from the bounding box after
positioning, lines 1436-1441 of the source), save the blend file, export the
STL, and create the UV print texture at 300 DPI.  An exception from the
figure depth loader propagates before any artifact is written. -/
def run_main (a : MainArgs) : Except Unit MainResult :=
  let layout := calculate_layout
  let card := create_base_plate
  let texts := add_title_and_subtitle a.title a.subtitle
  match create_displaced_mesh a.figure_depth a.figure_mesh with
  | .error e => .error e
  | .ok fig? =>
    let placed_fig := fig?.map fun f => position_figure f card layout
    let figure_pos := placed_fig.map fun r => r.2.2.pos
    let figure_dims := placed_fig.map fun r => r.2.2.dims
    let accessories := placed_accessories card layout a.acc1 a.acc2 a.acc3
    let acc_records := accessories.map record_of_object
    let text_list := texts.1.toList ++ texts.2.toList
    let stl_bbox := export_stl_bbox_mm card (placed_fig.map fun r => r.1) accessories text_list
    .ok { blend_saved := true
          stl_exported := true
          texture_saved := true
          figure_pos := figure_pos
          figure_dims := figure_dims
          acc_records := acc_records
          stl_bbox_mm := stl_bbox
          texture_canvas := create_uv_print_texture_canvas 300
          texture_dpi := saved_texture_dpi 300 }

/- ============================================================
   Helper lemmas.
   ============================================================ -/

lemma obj_eq_of_fields {o o' : Obj} (hl : o.loc = o'.loc) (hn : o.mn = o'.mn)
    (hx : o.mx = o'.mx) : o = o' := by
  cases o; cases o'; simp_all

lemma v3_eq_of_fields {v v' : V3} (hx : v.x = v'.x) (hy : v.y = v'.y)
    (hz : v.z = v'.z) : v = v' := by
  cases v; cases v'; simp_all

lemma scale_about_loc_one (o : Obj) : scale_about_loc o 1 = o := by
  refine obj_eq_of_fields rfl (v3_eq_of_fields ?_ ?_ ?_) (v3_eq_of_fields ?_ ?_ ?_) <;>
    simp only [scale_about_loc] <;> ring

lemma world_dims_translate (o : Obj) (d : V3) :
    world_dims (translate o d) = world_dims o := by
  refine v3_eq_of_fields ?_ ?_ ?_ <;> simp only [world_dims, translate, V3.add] <;> ring

lemma world_dims_center_xy (o : Obj) : world_dims (center_xy o) = world_dims o := by
  simp [center_xy, world_dims_translate]

lemma world_dims_rest_on_z0 (o : Obj) : world_dims (rest_on_z0 o) = world_dims o := by
  simp [rest_on_z0, world_dims_translate]

lemma world_dims_snap (o base : Obj) (z : ℚ) :
    world_dims (snap_bottom_to_base_top o base z) = world_dims o := by
  simp [snap_bottom_to_base_top, world_dims_translate]

lemma world_dims_sink (o : Obj) (t s : ℚ) :
    world_dims (sink_mesh_plane_into_card o t s) = world_dims o := by
  simp [sink_mesh_plane_into_card, world_dims_translate]

lemma world_dims_scale_about_loc (o : Obj) (s : ℚ) :
    world_dims (scale_about_loc o s) =
      ⟨s * (world_dims o).x, s * (world_dims o).y, s * (world_dims o).z⟩ := by
  refine v3_eq_of_fields ?_ ?_ ?_ <;> simp [world_dims, scale_about_loc] <;> ring

/-- After sinking, the bottom of the object is exactly -sink_depth_mm/1000. -/
lemma bottom_z_sink (o : Obj) (t s : ℚ) :
    bottom_z (sink_mesh_plane_into_card o t s) = -(s / 1000) := by
  simp [sink_mesh_plane_into_card, bottom_z, translate, V3.add]

/-- With both source dimensions at least eps and both margin-shrunk targets at
least the 1e-6 clamp, uniform_fit applies exactly the unclamped scale
min((targetW - 2 margin) / srcW, (targetH - 2 margin) / srcH) * boost
(targets and margin in mm, source in meters). -/
lemma uniform_fit_eq_scale (o : Obj) (target_w target_h margin size_boost : ℚ)
    (hx : 1 / 10 ^ 9 ≤ (world_dims o).x) (hy : 1 / 10 ^ 9 ≤ (world_dims o).y)
    (hw : 1 / 10 ^ 6 ≤ target_w / 1000 - 2 * margin / 1000)
    (hh : 1 / 10 ^ 6 ≤ target_h / 1000 - 2 * margin / 1000) :
    uniform_fit o target_w target_h margin size_boost =
      (scale_about_loc o
        (min ((target_w / 1000 - 2 * margin / 1000) / (world_dims o).x)
             ((target_h / 1000 - 2 * margin / 1000) / (world_dims o).y) * size_boost),
       min ((target_w / 1000 - 2 * margin / 1000) / (world_dims o).x)
           ((target_h / 1000 - 2 * margin / 1000) / (world_dims o).y) * size_boost *
         (world_dims o).z) := by
  have h1 : ¬ ((world_dims o).x < 1 / 10 ^ 9 ∨ (world_dims o).y < 1 / 10 ^ 9) := by
    push_neg
    exact ⟨hx, hy⟩
  simp only [uniform_fit, if_neg h1, max_eq_right hw, max_eq_right hh, max_eq_left hx,
    max_eq_left hy, world_dims_scale_about_loc]

/-- uniform_fit short-circuits on a near-zero X or Y dimension. -/
lemma uniform_fit_skip (o : Obj) (target_w target_h margin size_boost : ℚ)
    (h : (world_dims o).x < 1 / 10 ^ 9 ∨ (world_dims o).y < 1 / 10 ^ 9) :
    uniform_fit o target_w target_h margin size_boost = (o, (world_dims o).z) := by
  rw [uniform_fit, if_pos h]

/- ============================================================
   Claim C8.
   ============================================================ -/

/-- Claim C8: the boolean trim against the card footprint is performed
exactly when the untrimmed bounding box exceeds the footprint, and skipping
leaves the piece (mesh and transform) entirely unchanged; likewise the
cut-below-card boolean is performed exactly when the bottom is strictly
below the card bottom plane, and is skipped, leaving the piece unchanged,
when the bottom is at or above that plane. -/
theorem C8_trim_and_cut_skip (o : Obj) (card_width card_height card_thickness : ℚ) :
    ((trim_to_card_boundaries o card_width card_height).2 = true ↔
      trim_needed o card_width card_height = true) ∧
    (trim_needed o card_width card_height = false →
      (trim_to_card_boundaries o card_width card_height).1 = o) ∧
    ((cut_below_card o card_thickness).2 = true ↔ bottom_z o < -card_thickness) ∧
    (-card_thickness ≤ bottom_z o → (cut_below_card o card_thickness).1 = o) := by
  refine ⟨?_, ?_, ?_, ?_⟩
  · simp only [trim_to_card_boundaries]
    split_ifs with h1 h2 <;> simp_all
  · intro h
    simp only [trim_to_card_boundaries]
    rw [if_neg (by simp [h])]
  · simp only [cut_below_card]
    split_ifs with h1 h2 h3 h4 <;> simp_all
  · intro h
    simp only [cut_below_card]
    rw [if_pos h]

/- ============================================================
   Claim C9.
   ============================================================ -/

/-- Claim C9: scale_text_to_fit scales the text uniformly by
min(maxWidth/currentWidth, maxHeight/currentHeight, 1), so the final
dimensions fit the maximum box and never exceed the original dimensions. -/
theorem C9_scale_text_to_fit_never_upscales (o : Obj) (max_width_mm max_height_mm : ℚ)
    (hw : 0 < (world_dims o).x) (hh : 0 < (world_dims o).y) :
    (scale_text_to_fit o max_width_mm max_height_mm).2.1 =
      (world_dims o).x * 1000 *
        min (min (max_width_mm / ((world_dims o).x * 1000))
                 (max_height_mm / ((world_dims o).y * 1000))) 1 ∧
    (scale_text_to_fit o max_width_mm max_height_mm).2.2 =
      (world_dims o).y * 1000 *
        min (min (max_width_mm / ((world_dims o).x * 1000))
                 (max_height_mm / ((world_dims o).y * 1000))) 1 ∧
    (scale_text_to_fit o max_width_mm max_height_mm).2.1 ≤ max_width_mm ∧
    (scale_text_to_fit o max_width_mm max_height_mm).2.2 ≤ max_height_mm ∧
    (scale_text_to_fit o max_width_mm max_height_mm).2.1 ≤ (world_dims o).x * 1000 ∧
    (scale_text_to_fit o max_width_mm max_height_mm).2.2 ≤ (world_dims o).y * 1000 := by
  have hcw : (0 : ℚ) < (world_dims o).x * 1000 := by positivity
  have hch : (0 : ℚ) < (world_dims o).y * 1000 := by positivity
  set cw := (world_dims o).x * 1000 with hcw_def
  set ch := (world_dims o).y * 1000 with hch_def
  set s := min (min (max_width_mm / cw) (max_height_mm / ch)) 1 with hs_def
  have hguard : ¬ (cw ≤ 0 ∨ ch ≤ 0) := by push_neg; exact ⟨hcw, hch⟩
  have hs1 : s ≤ max_width_mm / cw := le_trans (min_le_left _ _) (min_le_left _ _)
  have hs2 : s ≤ max_height_mm / ch := le_trans (min_le_left _ _) (min_le_right _ _)
  have hs3 : s ≤ 1 := min_le_right _ _
  have key : (scale_text_to_fit o max_width_mm max_height_mm).2.1 = cw * s ∧
      (scale_text_to_fit o max_width_mm max_height_mm).2.2 = ch * s := by
    simp only [scale_text_to_fit, if_neg hguard, if_pos hcw, if_pos hch, ← hcw_def, ← hch_def,
      ← hs_def]
    split_ifs with hlt
    · constructor <;> · simp only [world_dims_scale_about_loc]; ring
    · have : s = 1 := le_antisymm hs3 (not_lt.1 hlt)
      rw [this]
      constructor <;> ring
  refine ⟨key.1, key.2, ?_, ?_, ?_, ?_⟩
  · rw [key.1]
    calc cw * s ≤ cw * (max_width_mm / cw) := by
          exact mul_le_mul_of_nonneg_left hs1 (le_of_lt hcw)
      _ = max_width_mm := by rw [mul_comm, div_mul_cancel₀ _ (ne_of_gt hcw)]
  · rw [key.2]
    calc ch * s ≤ ch * (max_height_mm / ch) := by
          exact mul_le_mul_of_nonneg_left hs2 (le_of_lt hch)
      _ = max_height_mm := by rw [mul_comm, div_mul_cancel₀ _ (ne_of_gt hch)]
  · rw [key.1]
    calc cw * s ≤ cw * 1 := mul_le_mul_of_nonneg_left hs3 (le_of_lt hcw)
      _ = cw := mul_one cw
  · rw [key.2]
    calc ch * s ≤ ch * 1 := mul_le_mul_of_nonneg_left hs3 (le_of_lt hch)
      _ = ch := mul_one ch

/-- A 200 mm x 10 mm text object, fitted to the title box. -/
def sample_title : Obj := ⟨⟨0, 0, 0⟩, ⟨-1/10, -1/200, 0⟩, ⟨1/10, 1/200, 1/1250⟩⟩

/-- Witness for C9 at a concrete oversized title. -/
theorem C9_witness :
    0 < (world_dims sample_title).x ∧ 0 < (world_dims sample_title).y ∧
    (scale_text_to_fit sample_title TITLE_MAX_WIDTH TITLE_MAX_HEIGHT).2.1 ≤ TITLE_MAX_WIDTH ∧
    (scale_text_to_fit sample_title TITLE_MAX_WIDTH TITLE_MAX_HEIGHT).2.1 ≤
      (world_dims sample_title).x * 1000 :=
  ⟨by norm_num [world_dims, sample_title], by norm_num [world_dims, sample_title],
   (C9_scale_text_to_fit_never_upscales sample_title TITLE_MAX_WIDTH TITLE_MAX_HEIGHT
      (by norm_num [world_dims, sample_title]) (by norm_num [world_dims, sample_title])).2.2.1,
   (C9_scale_text_to_fit_never_upscales sample_title TITLE_MAX_WIDTH TITLE_MAX_HEIGHT
      (by norm_num [world_dims, sample_title]) (by norm_num [world_dims, sample_title])).2.2.2.2.1⟩

/- ============================================================
   Claim C10.
   ============================================================ -/

/-- Claim C10: for positive source X and Y dimensions and arbitrary targets
and margin (including margins making target - 2 margin nonpositive, where
the 1e-6 clamp takes over), uniform_fit applies a strictly positive scale
factor: the mesh is never mirrored and no division by zero occurs. -/
theorem C10_uniform_fit_scale_positive (o : Obj) (target_w target_h margin size_boost : ℚ)
    (hx : 0 < (world_dims o).x) (hy : 0 < (world_dims o).y) (hb : 0 < size_boost) :
    ∃ s : ℚ, 0 < s ∧
      (uniform_fit o target_w target_h margin size_boost).1 = scale_about_loc o s := by
  by_cases h : (world_dims o).x < 1 / 10 ^ 9 ∨ (world_dims o).y < 1 / 10 ^ 9
  · refine ⟨1, one_pos, ?_⟩
    rw [uniform_fit_skip o _ _ _ _ h, scale_about_loc_one]
  · push_neg at h
    refine ⟨min (max (1 / 10 ^ 6) (target_w / 1000 - 2 * margin / 1000) /
        max (world_dims o).x (1 / 10 ^ 9))
        (max (1 / 10 ^ 6) (target_h / 1000 - 2 * margin / 1000) /
        max (world_dims o).y (1 / 10 ^ 9)) * size_boost, ?_, ?_⟩
    · have d1 : (0 : ℚ) < max (world_dims o).x (1 / 10 ^ 9) := lt_max_of_lt_left hx
      have d2 : (0 : ℚ) < max (world_dims o).y (1 / 10 ^ 9) := lt_max_of_lt_left hy
      have n1 : (0 : ℚ) < max (1 / 10 ^ 6) (target_w / 1000 - 2 * margin / 1000) :=
        lt_max_of_lt_left (by norm_num)
      have n2 : (0 : ℚ) < max (1 / 10 ^ 6) (target_h / 1000 - 2 * margin / 1000) :=
        lt_max_of_lt_left (by norm_num)
      exact mul_pos (lt_min (div_pos n1 d1) (div_pos n2 d2)) hb
    · have hcond : ¬ ((world_dims o).x < 1 / 10 ^ 9 ∨ (world_dims o).y < 1 / 10 ^ 9) := by
        push_neg
        exact h
      simp only [uniform_fit, if_neg hcond]

/-- Witness for C10: unit-cube source with a margin far larger than the
target, boost 1. -/
theorem C10_witness :
    0 < (world_dims ⟨⟨0, 0, 0⟩, ⟨-1/2, -1/2, -1/2⟩, ⟨1/2, 1/2, 1/2⟩⟩ : V3).x ∧
    ∃ s : ℚ, 0 < s ∧
      (uniform_fit ⟨⟨0, 0, 0⟩, ⟨-1/2, -1/2, -1/2⟩, ⟨1/2, 1/2, 1/2⟩⟩ 1 1 1000 1).1 =
        scale_about_loc ⟨⟨0, 0, 0⟩, ⟨-1/2, -1/2, -1/2⟩, ⟨1/2, 1/2, 1/2⟩⟩ s :=
  ⟨by norm_num [world_dims],
   C10_uniform_fit_scale_positive _ 1 1 1000 1 (by norm_num [world_dims])
     (by norm_num [world_dims]) one_pos⟩

/- ============================================================
   Claim C5.
   ============================================================ -/

/-- The scale formula the spec asserts for uniform_fit (property P1), with
no 1e-6 clamp: min((targetW - 2 margin)/srcW, (targetH - 2 margin)/srcH)
times boost, targets and margin in mm and source dimensions in meters as in
the source.  Stated from the spec wording for comparison with uniform_fit. -/
def uniform_fit_scale_claim (d : V3) (target_w target_h margin size_boost : ℚ) : ℚ :=
  min ((target_w / 1000 - 2 * margin / 1000) / d.x)
      ((target_h / 1000 - 2 * margin / 1000) / d.y) * size_boost

/-- Swap the X and Y axes of an object. -/
def swap_xy (o : Obj) : Obj :=
  ⟨⟨o.loc.y, o.loc.x, o.loc.z⟩, ⟨o.mn.y, o.mn.x, o.mn.z⟩, ⟨o.mx.y, o.mx.x, o.mx.z⟩⟩

lemma world_dims_swap_xy (o : Obj) :
    world_dims (swap_xy o) =
      ⟨(world_dims o).y, (world_dims o).x, (world_dims o).z⟩ := by
  refine v3_eq_of_fields ?_ ?_ ?_ <;> simp [world_dims, swap_xy]

lemma swap_xy_scale_about_loc (o : Obj) (s : ℚ) :
    swap_xy (scale_about_loc o s) = scale_about_loc (swap_xy o) s := by
  refine obj_eq_of_fields rfl (v3_eq_of_fields ?_ ?_ ?_) (v3_eq_of_fields ?_ ?_ ?_) <;>
    simp [swap_xy, scale_about_loc]

/-- A unit cube centered at the origin. -/
def unit_cube : Obj := ⟨⟨0, 0, 0⟩, ⟨-1/2, -1/2, -1/2⟩, ⟨1/2, 1/2, 1/2⟩⟩

/-- Counterexample to claim C5 as stated: with positive targets (1 mm) and a
positive margin (10 mm) whose doubled value exceeds the target, the 1e-6
clamp makes uniform_fit scale by 1e-6 instead of the negative value of the
claimed formula. -/
theorem C5_counterexample :
    (world_dims (uniform_fit unit_cube 1 1 10 1).1).x ≠
      (world_dims unit_cube).x *
        uniform_fit_scale_claim (world_dims unit_cube) 1 1 10 1 := by
  norm_num [uniform_fit, uniform_fit_scale_claim, unit_cube, world_dims, scale_about_loc]

/-- Claim C5 as amended: when both source dimensions are at least the 1e-9
short-circuit bound and both margin-shrunk targets are at least the 1 e-3 mm
clamp bound, uniform_fit scales exactly by the claimed formula and returns
the post-scale Z dimension; the fit is symmetric in which axis is tighter
(swapping the X/Y axes of the source and the two targets swaps the result);
and a near-zero source X or Y dimension short-circuits, returning the object
unscaled together with its unscaled Z dimension. -/
theorem C5_amended_uniform_fit_formula (o : Obj) (target_w target_h margin size_boost : ℚ)
    (hx : 1 / 10 ^ 9 ≤ (world_dims o).x) (hy : 1 / 10 ^ 9 ≤ (world_dims o).y)
    (hw : 1 / 1000 ≤ target_w - 2 * margin) (hh : 1 / 1000 ≤ target_h - 2 * margin) :
    uniform_fit o target_w target_h margin size_boost =
      (scale_about_loc o
         (uniform_fit_scale_claim (world_dims o) target_w target_h margin size_boost),
       uniform_fit_scale_claim (world_dims o) target_w target_h margin size_boost *
         (world_dims o).z) ∧
    uniform_fit (swap_xy o) target_h target_w margin size_boost =
      (swap_xy (uniform_fit o target_w target_h margin size_boost).1,
       (uniform_fit o target_w target_h margin size_boost).2) ∧
    (∀ o2 : Obj, (world_dims o2).x < 1 / 10 ^ 9 ∨ (world_dims o2).y < 1 / 10 ^ 9 →
      uniform_fit o2 target_w target_h margin size_boost = (o2, (world_dims o2).z)) := by
  have hw6 : 1 / 10 ^ 6 ≤ target_w / 1000 - 2 * margin / 1000 := by
    have : (target_w - 2 * margin) / 1000 = target_w / 1000 - 2 * margin / 1000 := by ring
    rw [← this]
    linarith
  have hh6 : 1 / 10 ^ 6 ≤ target_h / 1000 - 2 * margin / 1000 := by
    have : (target_h - 2 * margin) / 1000 = target_h / 1000 - 2 * margin / 1000 := by ring
    rw [← this]
    linarith
  have base := uniform_fit_eq_scale o target_w target_h margin size_boost hx hy hw6 hh6
  have hsx : 1 / 10 ^ 9 ≤ (world_dims (swap_xy o)).x := by rw [world_dims_swap_xy]; exact hy
  have hsy : 1 / 10 ^ 9 ≤ (world_dims (swap_xy o)).y := by rw [world_dims_swap_xy]; exact hx
  have swapped := uniform_fit_eq_scale (swap_xy o) target_h target_w margin size_boost hsx hsy hh6 hw6
  refine ⟨by rw [base]; rfl, ?_, fun o2 h2 => uniform_fit_skip o2 _ _ _ _ h2⟩
  rw [swapped, base]
  have hmin : min ((target_h / 1000 - 2 * margin / 1000) / (world_dims (swap_xy o)).x)
       ((target_w / 1000 - 2 * margin / 1000) / (world_dims (swap_xy o)).y) =
      min ((target_w / 1000 - 2 * margin / 1000) / (world_dims o).x)
       ((target_h / 1000 - 2 * margin / 1000) / (world_dims o).y) := by
    rw [world_dims_swap_xy]
    exact min_comm _ _
  rw [hmin, swap_xy_scale_about_loc, world_dims_swap_xy]

/-- Witness for C5 at the unit cube fitted into the figure slot. -/
theorem C5_witness :
    1 / 10 ^ 9 ≤ (world_dims unit_cube).x ∧ 1 / 1000 ≤ (78 : ℚ) - 2 * 5 ∧
    uniform_fit unit_cube 78 (289 / 2) 5 (33 / 25) =
      (scale_about_loc unit_cube
         (uniform_fit_scale_claim (world_dims unit_cube) 78 (289 / 2) 5 (33 / 25)),
       uniform_fit_scale_claim (world_dims unit_cube) 78 (289 / 2) 5 (33 / 25) *
         (world_dims unit_cube).z) :=
  ⟨by norm_num [world_dims, unit_cube], by norm_num,
   (C5_amended_uniform_fit_formula unit_cube 78 (289 / 2) 5 (33 / 25)
      (by norm_num [world_dims, unit_cube]) (by norm_num [world_dims, unit_cube])
      (by norm_num) (by norm_num)).1⟩

/- ============================================================
   Claim C3.
   ============================================================ -/

/-- The record position_figure captures is exactly the record of the state
after sinking and before the boolean trim. -/
lemma position_figure_record (figure card : Obj) (layout : Layout) :
    (position_figure figure card layout).2.2 =
      record_of_object (fig_pre_trim_state figure card layout) := rfl

/-- Dimensions of the figure at the pre-trim moment: the source dimensions
scaled by the cell-fit scale (translations before and after the fit do not
change dimensions). -/
lemma world_dims_fig_pre_trim (figure card : Obj) (layout : Layout)
    (hx : 1 / 10 ^ 9 ≤ (world_dims figure).x) (hy : 1 / 10 ^ 9 ≤ (world_dims figure).y)
    (hw : 1 / 10 ^ 6 ≤ layout.fig_slot_w / 1000 - 2 * MARGIN_FIGURE / 1000)
    (hh : 1 / 10 ^ 6 ≤ layout.fig_slot_h / 1000 - 2 * MARGIN_FIGURE / 1000) :
    world_dims (fig_pre_trim_state figure card layout) =
      ⟨(world_dims figure).x *
         (min ((layout.fig_slot_w / 1000 - 2 * MARGIN_FIGURE / 1000) / (world_dims figure).x)
              ((layout.fig_slot_h / 1000 - 2 * MARGIN_FIGURE / 1000) / (world_dims figure).y) *
          SIZE_BOOST_FIGURE),
       (world_dims figure).y *
         (min ((layout.fig_slot_w / 1000 - 2 * MARGIN_FIGURE / 1000) / (world_dims figure).x)
              ((layout.fig_slot_h / 1000 - 2 * MARGIN_FIGURE / 1000) / (world_dims figure).y) *
          SIZE_BOOST_FIGURE),
       (world_dims figure).z *
         (min ((layout.fig_slot_w / 1000 - 2 * MARGIN_FIGURE / 1000) / (world_dims figure).x)
              ((layout.fig_slot_h / 1000 - 2 * MARGIN_FIGURE / 1000) / (world_dims figure).y) *
          SIZE_BOOST_FIGURE)⟩ := by
  have hx2 : 1 / 10 ^ 9 ≤ (world_dims (rest_on_z0 (center_xy figure))).x := by
    rw [world_dims_rest_on_z0, world_dims_center_xy]; exact hx
  have hy2 : 1 / 10 ^ 9 ≤ (world_dims (rest_on_z0 (center_xy figure))).y := by
    rw [world_dims_rest_on_z0, world_dims_center_xy]; exact hy
  have hfit := uniform_fit_eq_scale (rest_on_z0 (center_xy figure)) layout.fig_slot_w
    layout.fig_slot_h MARGIN_FIGURE SIZE_BOOST_FIGURE hx2 hy2 hw hh
  have hfit1 : (uniform_fit (rest_on_z0 (center_xy figure)) layout.fig_slot_w
      layout.fig_slot_h MARGIN_FIGURE SIZE_BOOST_FIGURE).1 =
      scale_about_loc (rest_on_z0 (center_xy figure))
        (min ((layout.fig_slot_w / 1000 - 2 * MARGIN_FIGURE / 1000) /
            (world_dims (rest_on_z0 (center_xy figure))).x)
          ((layout.fig_slot_h / 1000 - 2 * MARGIN_FIGURE / 1000) /
            (world_dims (rest_on_z0 (center_xy figure))).y) * SIZE_BOOST_FIGURE) := by
    rw [hfit]
  simp only [fig_pre_trim_state]
  rw [world_dims_sink, world_dims_snap, world_dims_translate, world_dims_center_xy, hfit1,
    world_dims_scale_about_loc, world_dims_rest_on_z0, world_dims_center_xy]
  refine v3_eq_of_fields ?_ ?_ ?_ <;> simp <;> ring

/-- A square figure mesh (aspect ratio 1:1, unlike the 68 x 134.5 boosted
figure cell). -/
def square_figure : Obj := ⟨⟨0, 0, 0⟩, ⟨-1/2, -1/2, 0⟩, ⟨1/2, 1/2, 1/100⟩⟩

/-- Counterexample to claim C3 as stated: for a square input image the
captured pre-trim dimensions are (89.76, 89.76) mm, not the claimed
(89.76, 177.54) = ((78 - 10) * 1.32, (144.5 - 10) * 1.32) mm; only the
binding axis reaches the boosted cell size. -/
theorem C3_counterexample :
    (position_figure square_figure create_base_plate calculate_layout).2.2.dims ≠
      ((calculate_layout.fig_slot_w - 2 * MARGIN_FIGURE) * SIZE_BOOST_FIGURE,
       (calculate_layout.fig_slot_h - 2 * MARGIN_FIGURE) * SIZE_BOOST_FIGURE) := by
  rw [position_figure_record]
  norm_num [record_of_object, fig_pre_trim_state, sink_mesh_plane_into_card,
    snap_bottom_to_base_top, center_xy, rest_on_z0, translate, V3.add, top_z, bottom_z,
    uniform_fit, scale_about_loc, world_dims, square_figure, create_base_plate,
    calculate_layout, CARD_WIDTH, CARD_HEIGHT, CARD_THICKNESS, upper_ratio,
    figure_width_ratio, acc_height_ratio, MARGIN_FIGURE, SIZE_BOOST_FIGURE,
    MESH_PLANE_SINK_DEPTH, Prod.ext_iff]

/-- Claim C3 as amended: the captured pre-trim dimensions equal the source
dimensions times the single fit scale min((cellW - 2 margin)/srcW,
(cellH - 2 margin)/srcH) * boost; the binding axis equals its boosted
margin-shrunk cell extent exactly, the other axis never exceeds its own, and
both equal the claimed pair only when the source aspect matches the cell
aspect.  Capture happens before the trim, so the record is independent of
any later trimming. -/
theorem C3_amended_pre_trim_dims (figure : Obj)
    (hx : 1 / 10 ^ 9 ≤ (world_dims figure).x) (hy : 1 / 10 ^ 9 ≤ (world_dims figure).y) :
    (position_figure figure create_base_plate calculate_layout).2.2.dims =
      ((world_dims figure).x * 1000 *
         (min ((calculate_layout.fig_slot_w / 1000 - 2 * MARGIN_FIGURE / 1000) /
              (world_dims figure).x)
            ((calculate_layout.fig_slot_h / 1000 - 2 * MARGIN_FIGURE / 1000) /
              (world_dims figure).y) * SIZE_BOOST_FIGURE),
       (world_dims figure).y * 1000 *
         (min ((calculate_layout.fig_slot_w / 1000 - 2 * MARGIN_FIGURE / 1000) /
              (world_dims figure).x)
            ((calculate_layout.fig_slot_h / 1000 - 2 * MARGIN_FIGURE / 1000) /
              (world_dims figure).y) * SIZE_BOOST_FIGURE)) ∧
    ((position_figure figure create_base_plate calculate_layout).2.2.dims.1 =
        (calculate_layout.fig_slot_w - 2 * MARGIN_FIGURE) * SIZE_BOOST_FIGURE ∨
     (position_figure figure create_base_plate calculate_layout).2.2.dims.2 =
        (calculate_layout.fig_slot_h - 2 * MARGIN_FIGURE) * SIZE_BOOST_FIGURE) ∧
    (position_figure figure create_base_plate calculate_layout).2.2.dims.1 ≤
      (calculate_layout.fig_slot_w - 2 * MARGIN_FIGURE) * SIZE_BOOST_FIGURE ∧
    (position_figure figure create_base_plate calculate_layout).2.2.dims.2 ≤
      (calculate_layout.fig_slot_h - 2 * MARGIN_FIGURE) * SIZE_BOOST_FIGURE := by
  have hx0 : (0 : ℚ) < (world_dims figure).x := lt_of_lt_of_le (by norm_num) hx
  have hy0 : (0 : ℚ) < (world_dims figure).y := lt_of_lt_of_le (by norm_num) hy
  have hw : 1 / 10 ^ 6 ≤ calculate_layout.fig_slot_w / 1000 - 2 * MARGIN_FIGURE / 1000 := by
    norm_num [calculate_layout, CARD_WIDTH, CARD_HEIGHT, upper_ratio, figure_width_ratio,
      acc_height_ratio, MARGIN_FIGURE]
  have hh : 1 / 10 ^ 6 ≤ calculate_layout.fig_slot_h / 1000 - 2 * MARGIN_FIGURE / 1000 := by
    norm_num [calculate_layout, CARD_WIDTH, CARD_HEIGHT, upper_ratio, figure_width_ratio,
      acc_height_ratio, MARGIN_FIGURE]
  have hdims := world_dims_fig_pre_trim figure create_base_plate calculate_layout hx hy hw hh
  have hdrec : (position_figure figure create_base_plate calculate_layout).2.2.dims =
      ((world_dims figure).x * 1000 *
         (min ((calculate_layout.fig_slot_w / 1000 - 2 * MARGIN_FIGURE / 1000) /
              (world_dims figure).x)
            ((calculate_layout.fig_slot_h / 1000 - 2 * MARGIN_FIGURE / 1000) /
              (world_dims figure).y) * SIZE_BOOST_FIGURE),
       (world_dims figure).y * 1000 *
         (min ((calculate_layout.fig_slot_w / 1000 - 2 * MARGIN_FIGURE / 1000) /
              (world_dims figure).x)
            ((calculate_layout.fig_slot_h / 1000 - 2 * MARGIN_FIGURE / 1000) /
              (world_dims figure).y) * SIZE_BOOST_FIGURE)) := by
    rw [position_figure_record]
    simp only [record_of_object, hdims, Prod.mk.injEq]
    constructor <;> ring
  have hboost : (0 : ℚ) < SIZE_BOOST_FIGURE := by norm_num [SIZE_BOOST_FIGURE]
  refine ⟨hdrec, ?_, ?_, ?_⟩
  · rcases min_cases ((calculate_layout.fig_slot_w / 1000 - 2 * MARGIN_FIGURE / 1000) /
        (world_dims figure).x)
      ((calculate_layout.fig_slot_h / 1000 - 2 * MARGIN_FIGURE / 1000) /
        (world_dims figure).y) with ⟨hmin, _⟩ | ⟨hmin, _⟩
    · left
      rw [hdrec]
      simp only
      rw [hmin]
      field_simp
      ring
    · right
      rw [hdrec]
      simp only
      rw [hmin]
      field_simp
      ring
  · rw [hdrec]
    simp only
    have h1 : min ((calculate_layout.fig_slot_w / 1000 - 2 * MARGIN_FIGURE / 1000) /
          (world_dims figure).x)
        ((calculate_layout.fig_slot_h / 1000 - 2 * MARGIN_FIGURE / 1000) /
          (world_dims figure).y) ≤
        (calculate_layout.fig_slot_w / 1000 - 2 * MARGIN_FIGURE / 1000) /
          (world_dims figure).x := min_le_left _ _
    calc (world_dims figure).x * 1000 * (min _ _ * SIZE_BOOST_FIGURE)
        ≤ (world_dims figure).x * 1000 *
            ((calculate_layout.fig_slot_w / 1000 - 2 * MARGIN_FIGURE / 1000) /
              (world_dims figure).x * SIZE_BOOST_FIGURE) := by
          apply mul_le_mul_of_nonneg_left _ (by positivity)
          exact mul_le_mul_of_nonneg_right h1 hboost.le
      _ = (calculate_layout.fig_slot_w - 2 * MARGIN_FIGURE) * SIZE_BOOST_FIGURE := by
          field_simp
          ring
  · rw [hdrec]
    simp only
    have h2 : min ((calculate_layout.fig_slot_w / 1000 - 2 * MARGIN_FIGURE / 1000) /
          (world_dims figure).x)
        ((calculate_layout.fig_slot_h / 1000 - 2 * MARGIN_FIGURE / 1000) /
          (world_dims figure).y) ≤
        (calculate_layout.fig_slot_h / 1000 - 2 * MARGIN_FIGURE / 1000) /
          (world_dims figure).y := min_le_right _ _
    calc (world_dims figure).y * 1000 * (min _ _ * SIZE_BOOST_FIGURE)
        ≤ (world_dims figure).y * 1000 *
            ((calculate_layout.fig_slot_h / 1000 - 2 * MARGIN_FIGURE / 1000) /
              (world_dims figure).y * SIZE_BOOST_FIGURE) := by
          apply mul_le_mul_of_nonneg_left _ (by positivity)
          exact mul_le_mul_of_nonneg_right h2 hboost.le
      _ = (calculate_layout.fig_slot_h - 2 * MARGIN_FIGURE) * SIZE_BOOST_FIGURE := by
          field_simp
          ring

/-- Witness for C3 at the square figure. -/
theorem C3_witness :
    1 / 10 ^ 9 ≤ (world_dims square_figure).x ∧
    ((position_figure square_figure create_base_plate calculate_layout).2.2.dims.1 =
        (calculate_layout.fig_slot_w - 2 * MARGIN_FIGURE) * SIZE_BOOST_FIGURE ∨
     (position_figure square_figure create_base_plate calculate_layout).2.2.dims.2 =
        (calculate_layout.fig_slot_h - 2 * MARGIN_FIGURE) * SIZE_BOOST_FIGURE) :=
  ⟨by norm_num [world_dims, square_figure],
   (C3_amended_pre_trim_dims square_figure (by norm_num [world_dims, square_figure])
      (by norm_num [world_dims, square_figure])).2.1⟩

/- ============================================================
   Claim C4.
   ============================================================ -/

/-- Counterexample to claim C4 as stated: the source truncates with int(),
so the 130 mm x 170 mm card at 300 DPI yields a 1535 x 2007 canvas; the
claimed per-axis round formula gives 2008 on the Y axis, and the canvas is
not exactly 1535 x 2008. -/
theorem C4_counterexample :
    create_uv_print_texture_canvas 300 = (1535, 2007) ∧
    round (CARD_HEIGHT / (254 / 10) * 300 : ℚ) = 2008 ∧
    create_uv_print_texture_canvas 300 ≠
      (round (CARD_WIDTH / (254 / 10) * 300 : ℚ),
       round (CARD_HEIGHT / (254 / 10) * 300 : ℚ)) := by
  refine ⟨?_, ?_, ?_⟩
  · norm_num [create_uv_print_texture_canvas, pyInt, CARD_WIDTH, CARD_HEIGHT, Prod.ext_iff]
  · rw [round_eq]
    norm_num [CARD_HEIGHT]
  · rw [round_eq, round_eq]
    norm_num [create_uv_print_texture_canvas, pyInt, CARD_WIDTH, CARD_HEIGHT, Prod.ext_iff]

/-- Claim C4 as amended: the canvas dimensions per axis are the truncation
int(card_mm / 25.4 * dpi) (the floor, for nonnegative dpi), which is within
one pixel below the claimed round; at 300 DPI the canvas is exactly
1535 x 2007 pixels, and the saved PNG embeds (dpi, dpi) as its DPI
metadata. -/
theorem C4_amended_canvas_truncation (dpi : ℚ) (hdpi : 0 ≤ dpi) :
    create_uv_print_texture_canvas dpi =
      (⌊CARD_WIDTH / (254 / 10) * dpi⌋, ⌊CARD_HEIGHT / (254 / 10) * dpi⌋) ∧
    round (CARD_WIDTH / (254 / 10) * dpi) - 1 ≤ (create_uv_print_texture_canvas dpi).1 ∧
    (create_uv_print_texture_canvas dpi).1 ≤ round (CARD_WIDTH / (254 / 10) * dpi) ∧
    round (CARD_HEIGHT / (254 / 10) * dpi) - 1 ≤ (create_uv_print_texture_canvas dpi).2 ∧
    (create_uv_print_texture_canvas dpi).2 ≤ round (CARD_HEIGHT / (254 / 10) * dpi) ∧
    saved_texture_dpi dpi = (dpi, dpi) ∧
    create_uv_print_texture_canvas 300 = (1535, 2007) := by
  have hqw : (0 : ℚ) ≤ CARD_WIDTH / (254 / 10) * dpi := by
    rw [CARD_WIDTH]
    positivity
  have hqh : (0 : ℚ) ≤ CARD_HEIGHT / (254 / 10) * dpi := by
    rw [CARD_HEIGHT]
    positivity
  have hpy : ∀ q : ℚ, 0 ≤ q → pyInt q = ⌊q⌋ := fun q hq => by
    rw [pyInt, if_neg (not_lt.2 hq)]
  have hfr : ∀ q : ℚ, ⌊q⌋ ≤ round q ∧ round q ≤ ⌊q⌋ + 1 := fun q => by
    rw [round_eq]
    constructor
    · exact Int.floor_mono (by linarith)
    · calc ⌊q + 1 / 2⌋ ≤ ⌊q + 1⌋ := Int.floor_mono (by linarith)
        _ = ⌊q⌋ + 1 := by
            exact_mod_cast Int.floor_add_int q 1
  have hcv : create_uv_print_texture_canvas dpi =
      (⌊CARD_WIDTH / (254 / 10) * dpi⌋, ⌊CARD_HEIGHT / (254 / 10) * dpi⌋) := by
    rw [create_uv_print_texture_canvas, hpy _ hqw, hpy _ hqh]
  refine ⟨hcv, ?_, ?_, ?_, ?_, rfl, ?_⟩
  · rw [hcv]
    have := (hfr (CARD_WIDTH / (254 / 10) * dpi)).2
    simp only
    omega
  · rw [hcv]
    have := (hfr (CARD_WIDTH / (254 / 10) * dpi)).1
    simp only
    omega
  · rw [hcv]
    have := (hfr (CARD_HEIGHT / (254 / 10) * dpi)).2
    simp only
    omega
  · rw [hcv]
    have := (hfr (CARD_HEIGHT / (254 / 10) * dpi)).1
    simp only
    omega
  · norm_num [create_uv_print_texture_canvas, pyInt, CARD_WIDTH, CARD_HEIGHT, Prod.ext_iff]

/-- Witness for C4 at 300 DPI. -/
theorem C4_witness :
    (0 : ℚ) ≤ 300 ∧ create_uv_print_texture_canvas 300 = (1535, 2007) :=
  ⟨by norm_num, (C4_amended_canvas_truncation 300 (by norm_num)).2.2.2.2.2.2⟩

/- ============================================================
   Claim C6.
   ============================================================ -/

/-- A closed axis-aligned rectangle in the card plane (meters). -/
structure Rect where
  x0 : ℚ
  x1 : ℚ
  y0 : ℚ
  y1 : ℚ
deriving DecidableEq, Repr

/-- Membership in a closed rectangle. -/
def Rect.contains (r : Rect) (px py : ℚ) : Prop :=
  r.x0 ≤ px ∧ px ≤ r.x1 ∧ r.y0 ≤ py ∧ py ≤ r.y1

/-- Two rectangles overlap when their intersection has positive area. -/
def Rect.overlaps (r s : Rect) : Prop :=
  max r.x0 s.x0 < min r.x1 s.x1 ∧ max r.y0 s.y0 < min r.y1 s.y1

/-- Rectangle from a center and a width/height (all meters). -/
def rect_of_center (cx cy w h : ℚ) : Rect := ⟨cx - w / 2, cx + w / 2, cy - h / 2, cy + h / 2⟩

/-- The figure cell of the layout. -/
def figure_cell : Rect :=
  rect_of_center calculate_layout.fig_x calculate_layout.fig_y
    (calculate_layout.fig_slot_w / 1000) (calculate_layout.fig_slot_h / 1000)

/-- The three accessory cells of the layout. -/
def accessory_cell (i : Fin 3) : Rect :=
  rect_of_center calculate_layout.acc_x (calculate_layout.acc_centers_y i)
    (calculate_layout.acc_slot_w / 1000) (calculate_layout.acc_cell_h / 1000)

/-- The text band: the top upper_ratio strip across the full card width. -/
def text_band : Rect :=
  ⟨-calculate_layout.card_w / 2, calculate_layout.card_w / 2,
   calculate_layout.card_h / 2 - calculate_layout.card_h * upper_ratio,
   calculate_layout.card_h / 2⟩

/-- The usable card area: the whole card footprint. -/
def card_area : Rect :=
  ⟨-calculate_layout.card_w / 2, calculate_layout.card_w / 2,
   -calculate_layout.card_h / 2, calculate_layout.card_h / 2⟩

/-- A point of the layout is covered when some cell or the text band
contains it. -/
def in_layout_union (px py : ℚ) : Prop :=
  figure_cell.contains px py ∨ (accessory_cell 0).contains px py ∨
    (accessory_cell 1).contains px py ∨ (accessory_cell 2).contains px py ∨
    text_band.contains px py

/-- Counterexample to claim C6 as stated: the point (39 mm, -80 mm) lies on
the card, in the accessory column below the accessory stack, and belongs to
no cell and not to the text band, so the union of the cells plus the text
band is not the whole usable card area. -/
theorem C6_counterexample :
    card_area.contains (39 / 1000) (-80 / 1000) ∧
    ¬ in_layout_union (39 / 1000) (-80 / 1000) := by
  constructor
  · norm_num [card_area, Rect.contains, calculate_layout, CARD_WIDTH, CARD_HEIGHT,
      upper_ratio, figure_width_ratio, acc_height_ratio]
  · norm_num [in_layout_union, figure_cell, accessory_cell, text_band, rect_of_center,
      Rect.contains, calculate_layout, CARD_WIDTH, CARD_HEIGHT, upper_ratio,
      figure_width_ratio, acc_height_ratio, Fin.isValue]

/-- Claim C6 as amended: the five regions (figure cell, three accessory
cells, text band) pairwise never overlap and all lie inside the usable card
area, but their union is a proper subset of it: the accessory-column strips
above and below the accessory stack (for example the point (39 mm, -80 mm))
are covered by no cell and not by the text band. -/
theorem C6_amended_layout_cells (px py : ℚ) :
    (¬ figure_cell.overlaps (accessory_cell 0) ∧
     ¬ figure_cell.overlaps (accessory_cell 1) ∧
     ¬ figure_cell.overlaps (accessory_cell 2) ∧
     ¬ figure_cell.overlaps text_band ∧
     ¬ (accessory_cell 0).overlaps (accessory_cell 1) ∧
     ¬ (accessory_cell 0).overlaps (accessory_cell 2) ∧
     ¬ (accessory_cell 0).overlaps text_band ∧
     ¬ (accessory_cell 1).overlaps (accessory_cell 2) ∧
     ¬ (accessory_cell 1).overlaps text_band ∧
     ¬ (accessory_cell 2).overlaps text_band) ∧
    (in_layout_union px py → card_area.contains px py) ∧
    (card_area.contains (39 / 1000) (-80 / 1000) ∧
      ¬ in_layout_union (39 / 1000) (-80 / 1000)) := by
  refine ⟨?_, ?_, ?_⟩
  · norm_num [figure_cell, accessory_cell, text_band, rect_of_center, Rect.overlaps,
      calculate_layout, CARD_WIDTH, CARD_HEIGHT, upper_ratio, figure_width_ratio,
      acc_height_ratio, Fin.isValue]
  · intro h
    have hnum : figure_cell = ⟨-65/1000, 13/1000, -85/1000, 119/2000⟩ ∧
        accessory_cell 0 = ⟨13/1000, 65/1000, 221/36000, 1581/36000⟩ ∧
        accessory_cell 1 = ⟨13/1000, 65/1000, -1139/36000, 221/36000⟩ ∧
        accessory_cell 2 = ⟨13/1000, 65/1000, -2499/36000, -1139/36000⟩ ∧
        text_band = ⟨-65/1000, 65/1000, 119/2000, 85/1000⟩ ∧
        card_area = ⟨-65/1000, 65/1000, -85/1000, 85/1000⟩ := by
      norm_num [figure_cell, accessory_cell, text_band, card_area, rect_of_center,
        calculate_layout, CARD_WIDTH, CARD_HEIGHT, upper_ratio, figure_width_ratio,
        acc_height_ratio, Fin.isValue, Rect.mk.injEq]
    obtain ⟨h1, h2, h3, h4, h5, h6⟩ := hnum
    rw [in_layout_union, h1, h2, h3, h4, h5] at h
    rw [h6]
    simp only [Rect.contains] at h ⊢
    rcases h with h | h | h | h | h <;>
      exact ⟨by linarith [h.1], by linarith [h.2.1], by linarith [h.2.2.1],
        by linarith [h.2.2.2]⟩
  · constructor
    · norm_num [card_area, Rect.contains, calculate_layout, CARD_WIDTH, CARD_HEIGHT,
        upper_ratio, figure_width_ratio, acc_height_ratio]
    · norm_num [in_layout_union, figure_cell, accessory_cell, text_band, rect_of_center,
        Rect.contains, calculate_layout, CARD_WIDTH, CARD_HEIGHT, upper_ratio,
        figure_width_ratio, acc_height_ratio, Fin.isValue]

/- ============================================================
   Claim C7: containment machinery.
   ============================================================ -/

/-- The XY bounding box lies within the card footprint (meters). -/
def xy_within_card (o : Obj) : Prop :=
  -(CARD_WIDTH / 1000 / 2) ≤ o.mn.x ∧ o.mx.x ≤ CARD_WIDTH / 1000 / 2 ∧
  -(CARD_HEIGHT / 1000 / 2) ≤ o.mn.y ∧ o.mx.y ≤ CARD_HEIGHT / 1000 / 2

/-- Whatever the input, the piece returned by the trim step lies within the
card footprint: either it already did (skip branch), or it was clipped to
the footprint, or it was disjoint from it and collapsed to the origin. -/
lemma trim_within (o : Obj) :
    xy_within_card (trim_to_card_boundaries o (CARD_WIDTH / 1000) (CARD_HEIGHT / 1000)).1 := by
  simp only [trim_to_card_boundaries]
  split
  next h1 =>
    split
    next h2 => norm_num [xy_within_card, CARD_WIDTH, CARD_HEIGHT]
    next h2 => exact ⟨le_max_right _ _, min_le_right _ _, le_max_right _ _, min_le_right _ _⟩
  next h1 =>
    simp only [trim_needed, Bool.or_eq_true, decide_eq_true_eq, not_or, not_lt] at h1
    obtain ⟨⟨⟨ha, hb⟩, hc⟩, hd⟩ := h1
    exact ⟨ha, hb, hc, hd⟩

/-- The cut-below-card step never widens the XY bounding box. -/
lemma cut_within (o : Obj) (t : ℚ) (h : xy_within_card o) :
    xy_within_card (cut_below_card o t).1 := by
  simp only [cut_below_card]
  split
  next => exact h
  next =>
    split
    next =>
      split
      next => exact ⟨h.1, h.2.1, h.2.2.1, h.2.2.2⟩
      next => exact h
    next =>
      split
      next => norm_num [xy_within_card, CARD_WIDTH, CARD_HEIGHT]
      next => exact ⟨h.1, h.2.1, h.2.2.1, h.2.2.2⟩

/-- Every positioned figure lies within the card footprint. -/
lemma position_figure_within (fig0 card : Obj) (layout : Layout) :
    xy_within_card (position_figure fig0 card layout).1 := by
  simp only [position_figure]
  exact cut_within _ _ (trim_within _)

/-- Every positioned accessory lies within the card footprint. -/
lemma position_accessory_within (acc0 card : Obj) (layout : Layout) (i : Fin 3) :
    xy_within_card (position_accessory acc0 card layout i) := by
  simp only [position_accessory]
  exact cut_within _ _ (trim_within _)

/-- The base plate lies within the card footprint. -/
lemma create_base_plate_within : xy_within_card create_base_plate := by
  norm_num [xy_within_card, create_base_plate, CARD_WIDTH, CARD_HEIGHT]

lemma box_union_within (a b : Obj) (ha : xy_within_card a) (hb : xy_within_card b) :
    xy_within_card (box_union a b) :=
  ⟨le_min ha.1 hb.1, max_le ha.2.1 hb.2.1, le_min ha.2.2.1 hb.2.2.1,
   max_le ha.2.2.2 hb.2.2.2⟩

lemma foldl_box_union_within (l : List Obj) (acc : Obj) (hacc : xy_within_card acc)
    (hl : ∀ o ∈ l, xy_within_card o) : xy_within_card (l.foldl box_union acc) := by
  induction l generalizing acc with
  | nil => exact hacc
  | cons a l ih =>
    exact ih (box_union acc a) (box_union_within acc a hacc (hl a (List.mem_cons_self a l)))
      fun o ho => hl o (List.mem_cons_of_mem a ho)

/-- Alignment and nondegeneracy of a text object: the text curve is created
with CENTER/CENTER alignment, so the object origin sits at the bounding-box
center, and the glyph geometry has positive width and height. -/
def text_obj_centered (o : Obj) : Prop :=
  (o.mn.x + o.mx.x) / 2 = o.loc.x ∧ (o.mn.y + o.mx.y) / 2 = o.loc.y ∧
  0 < (world_dims o).x ∧ 0 < (world_dims o).y

/-- scale_text_to_fit keeps positive dimensions, bounds them by the maxima
(converted to meters), and preserves the centered alignment. -/
lemma scale_text_to_fit_props (o : Obj) (mw mh : ℚ) (hmw : 0 < mw) (hmh : 0 < mh)
    (hw : 0 < (world_dims o).x) (hh : 0 < (world_dims o).y) :
    0 < (world_dims (scale_text_to_fit o mw mh).1).x ∧
    0 < (world_dims (scale_text_to_fit o mw mh).1).y ∧
    (world_dims (scale_text_to_fit o mw mh).1).x ≤ mw / 1000 ∧
    (world_dims (scale_text_to_fit o mw mh).1).y ≤ mh / 1000 ∧
    ((o.mn.x + o.mx.x) / 2 = o.loc.x →
      (((scale_text_to_fit o mw mh).1).mn.x + ((scale_text_to_fit o mw mh).1).mx.x) / 2 =
        ((scale_text_to_fit o mw mh).1).loc.x) ∧
    ((o.mn.y + o.mx.y) / 2 = o.loc.y →
      (((scale_text_to_fit o mw mh).1).mn.y + ((scale_text_to_fit o mw mh).1).mx.y) / 2 =
        ((scale_text_to_fit o mw mh).1).loc.y) := by
  have hcw : (0 : ℚ) < (world_dims o).x * 1000 := by positivity
  have hch : (0 : ℚ) < (world_dims o).y * 1000 := by positivity
  have hguard : ¬ ((world_dims o).x * 1000 ≤ 0 ∨ (world_dims o).y * 1000 ≤ 0) := by
    push_neg
    exact ⟨hcw, hch⟩
  simp only [scale_text_to_fit, if_neg hguard, if_pos hcw, if_pos hch]
  set s := min (min (mw / ((world_dims o).x * 1000)) (mh / ((world_dims o).y * 1000))) 1
    with hs_def
  have hs_pos : 0 < s := lt_min (lt_min (div_pos hmw hcw) (div_pos hmh hch)) one_pos
  have hs1 : s ≤ mw / ((world_dims o).x * 1000) := le_trans (min_le_left _ _) (min_le_left _ _)
  have hs2 : s ≤ mh / ((world_dims o).y * 1000) := le_trans (min_le_left _ _) (min_le_right _ _)
  split_ifs with hlt
  · refine ⟨?_, ?_, ?_, ?_, ?_, ?_⟩
    · simp only [world_dims_scale_about_loc]
      exact mul_pos hs_pos hw
    · simp only [world_dims_scale_about_loc]
      exact mul_pos hs_pos hh
    · simp only [world_dims_scale_about_loc]
      calc s * (world_dims o).x ≤ mw / ((world_dims o).x * 1000) * (world_dims o).x :=
            mul_le_mul_of_nonneg_right hs1 hw.le
        _ = mw / 1000 := by
            field_simp
            ring
    · simp only [world_dims_scale_about_loc]
      calc s * (world_dims o).y ≤ mh / ((world_dims o).y * 1000) * (world_dims o).y :=
            mul_le_mul_of_nonneg_right hs2 hh.le
        _ = mh / 1000 := by
            field_simp
            ring
    · intro hcx
      have h2 : o.mn.x + o.mx.x = 2 * o.loc.x := by linarith
      simp only [scale_about_loc]
      linear_combination (s / 2) * h2
    · intro hcy
      have h2 : o.mn.y + o.mx.y = 2 * o.loc.y := by linarith
      simp only [scale_about_loc]
      linear_combination (s / 2) * h2
  · have hs_ge : 1 ≤ min (mw / ((world_dims o).x * 1000)) (mh / ((world_dims o).y * 1000)) := by
      by_contra hcon
      push_neg at hcon
      exact hlt (by rw [hs_def]; exact lt_of_le_of_lt (min_le_left _ _) hcon)
    have hbw : (world_dims o).x * 1000 ≤ mw :=
      (one_le_div hcw).1 (le_trans hs_ge (min_le_left _ _))
    have hbh : (world_dims o).y * 1000 ≤ mh :=
      (one_le_div hch).1 (le_trans hs_ge (min_le_right _ _))
    exact ⟨hw, hh, by linarith, by linarith, fun hcx => hcx, fun hcy => hcy⟩

/-- A centered text object placed at x = 0 with a vertical center whose
bounding box stays on the card lies within the card footprint. -/
lemma placed_text_within (o : Obj) (yc zc : ℚ)
    (hcx : (o.mn.x + o.mx.x) / 2 = o.loc.x) (hcy : (o.mn.y + o.mx.y) / 2 = o.loc.y)
    (hwle : (world_dims o).x ≤ 13 / 100)
    (hylo : -(17 / 200) ≤ yc - (world_dims o).y / 2)
    (hyhi : yc + (world_dims o).y / 2 ≤ 17 / 200) :
    xy_within_card (translate o ⟨0 - o.loc.x, yc - o.loc.y, zc - o.loc.z⟩) := by
  simp only [world_dims] at hwle hylo hyhi
  simp only [xy_within_card, translate, V3.add, CARD_WIDTH, CARD_HEIGHT]
  norm_num
  refine ⟨by linarith, by linarith, by linarith, by linarith⟩

/-- The text objects appended to the export list, after fitting and
positioning. -/
def assembled_texts (title0 sub0 : Option Obj) : List Obj :=
  (add_title_and_subtitle title0 sub0).1.toList ++ (add_title_and_subtitle title0 sub0).2.toList

/-- Every fitted and positioned text object lies within the card footprint
(CENTER-aligned source text with positive dimensions assumed). -/
lemma assembled_texts_within (title0 sub0 : Option Obj)
    (ht : ∀ t ∈ title0, text_obj_centered t) (hs : ∀ s2 ∈ sub0, text_obj_centered s2) :
    ∀ o ∈ assembled_texts title0 sub0, xy_within_card o := by
  have e1 : CARD_HEIGHT / 2 / 1000 = (17 : ℚ) / 200 := by norm_num [CARD_HEIGHT]
  have e2 : TEXT_TOP_MARGIN / 1000 = (1 : ℚ) / 100 := by norm_num [TEXT_TOP_MARGIN]
  have e3 : SUBTITLE_MAX_HEIGHT / 1000 = (743 : ℚ) / 100000 := by
    norm_num [SUBTITLE_MAX_HEIGHT]
  have e4 : TITLE_MAX_HEIGHT / 1000 = (117 : ℚ) / 10000 := by norm_num [TITLE_MAX_HEIGHT]
  cases title0 with
  | none =>
    cases sub0 with
    | none =>
      intro o ho
      simp [assembled_texts, add_title_and_subtitle] at ho
    | some s2 =>
      have hsc := hs s2 (by simp)
      have props := scale_text_to_fit_props s2 SUBTITLE_MAX_WIDTH SUBTITLE_MAX_HEIGHT
        (by norm_num [SUBTITLE_MAX_WIDTH]) (by norm_num [SUBTITLE_MAX_HEIGHT])
        hsc.2.2.1 hsc.2.2.2
      intro o ho
      simp only [assembled_texts, add_title_and_subtitle, Option.map_none', Option.map_some',
        Option.toList_none, Option.toList_some, List.nil_append, List.mem_singleton] at ho
      subst ho
      refine placed_text_within _ _ _ (props.2.2.2.2.1 hsc.1) (props.2.2.2.2.2 hsc.2.1)
        (le_trans props.2.2.1 (by norm_num [SUBTITLE_MAX_WIDTH])) ?_ ?_
      · have hb := props.2.2.2.1
        linarith
      · have hp := props.2.1
        linarith
  | some t =>
    have htc := ht t (by simp)
    have tprops := scale_text_to_fit_props t TITLE_MAX_WIDTH TITLE_MAX_HEIGHT
      (by norm_num [TITLE_MAX_WIDTH]) (by norm_num [TITLE_MAX_HEIGHT])
      htc.2.2.1 htc.2.2.2
    have htitle_within : xy_within_card
        (translate (scale_text_to_fit t TITLE_MAX_WIDTH TITLE_MAX_HEIGHT).1
          ⟨0 - (scale_text_to_fit t TITLE_MAX_WIDTH TITLE_MAX_HEIGHT).1.loc.x,
           CARD_HEIGHT / 2 / 1000 - TEXT_TOP_MARGIN / 1000 -
             (world_dims (scale_text_to_fit t TITLE_MAX_WIDTH TITLE_MAX_HEIGHT).1).y / 2 -
             (scale_text_to_fit t TITLE_MAX_WIDTH TITLE_MAX_HEIGHT).1.loc.y,
           TEXT_LIFT / 1000 -
             (scale_text_to_fit t TITLE_MAX_WIDTH TITLE_MAX_HEIGHT).1.loc.z⟩) := by
      refine placed_text_within _ _ _ (tprops.2.2.2.2.1 htc.1) (tprops.2.2.2.2.2 htc.2.1)
        (le_trans tprops.2.2.1 (by norm_num [TITLE_MAX_WIDTH])) ?_ ?_
      · have hb := tprops.2.2.2.1
        linarith
      · have hp := tprops.2.1
        linarith
    cases sub0 with
    | none =>
      intro o ho
      simp only [assembled_texts, add_title_and_subtitle, Option.map_none', Option.map_some',
        Option.toList_none, Option.toList_some, List.append_nil, List.mem_singleton] at ho
      subst ho
      exact htitle_within
    | some s2 =>
      have hsc := hs s2 (by simp)
      have sprops := scale_text_to_fit_props s2 SUBTITLE_MAX_WIDTH SUBTITLE_MAX_HEIGHT
        (by norm_num [SUBTITLE_MAX_WIDTH]) (by norm_num [SUBTITLE_MAX_HEIGHT])
        hsc.2.2.1 hsc.2.2.2
      have hty : (translate (scale_text_to_fit t TITLE_MAX_WIDTH TITLE_MAX_HEIGHT).1
          ⟨0 - (scale_text_to_fit t TITLE_MAX_WIDTH TITLE_MAX_HEIGHT).1.loc.x,
           CARD_HEIGHT / 2 / 1000 - TEXT_TOP_MARGIN / 1000 -
             (world_dims (scale_text_to_fit t TITLE_MAX_WIDTH TITLE_MAX_HEIGHT).1).y / 2 -
             (scale_text_to_fit t TITLE_MAX_WIDTH TITLE_MAX_HEIGHT).1.loc.y,
           TEXT_LIFT / 1000 -
             (scale_text_to_fit t TITLE_MAX_WIDTH TITLE_MAX_HEIGHT).1.loc.z⟩).loc.y =
          CARD_HEIGHT / 2 / 1000 - TEXT_TOP_MARGIN / 1000 -
            (world_dims (scale_text_to_fit t TITLE_MAX_WIDTH TITLE_MAX_HEIGHT).1).y / 2 := by
        simp only [translate, V3.add]
        ring
      intro o ho
      simp only [assembled_texts, add_title_and_subtitle, Option.map_none', Option.map_some',
        Option.toList_none, Option.toList_some, List.mem_append, List.mem_singleton] at ho
      rcases ho with ho | ho
      · subst ho
        exact htitle_within
      · subst ho
        refine placed_text_within _ _ _ (sprops.2.2.2.2.1 hsc.1) (sprops.2.2.2.2.2 hsc.2.1)
          (le_trans sprops.2.2.1 (by norm_num [SUBTITLE_MAX_WIDTH])) ?_ ?_
        · rw [hty]
          have hsb := sprops.2.2.2.1
          have htb := tprops.2.2.2.1
          linarith
        · rw [hty]
          have hsp := sprops.2.1
          have htp := tprops.2.1
          linarith

/-- The bounding box, in mm, of the STL exported by main for a job whose
figure was built, mirroring the export call in main: base plate, positioned
figure, positioned accessories and positioned text joined into one mesh. -/
def assembly_stl_bbox_mm (fig0 : Obj) (a1 a2 a3 title0 sub0 : Option Obj) : V3 × V3 :=
  export_stl_bbox_mm create_base_plate
    (some (position_figure fig0 create_base_plate calculate_layout).1)
    (placed_accessories create_base_plate calculate_layout a1 a2 a3)
    (assembled_texts title0 sub0)

/-- Claim C7: for arbitrary (also oversized) relief inputs, the exported STL
XY bounding box never exceeds the 130 mm x 170 mm card footprint; every
joined component lies within it after the per-piece trim. -/
theorem C7_stl_within_card_footprint (fig0 : Obj) (a1 a2 a3 title0 sub0 : Option Obj)
    (ht : ∀ t ∈ title0, text_obj_centered t) (hs : ∀ s2 ∈ sub0, text_obj_centered s2) :
    -65 ≤ (assembly_stl_bbox_mm fig0 a1 a2 a3 title0 sub0).1.x ∧
    (assembly_stl_bbox_mm fig0 a1 a2 a3 title0 sub0).2.x ≤ 65 ∧
    -85 ≤ (assembly_stl_bbox_mm fig0 a1 a2 a3 title0 sub0).1.y ∧
    (assembly_stl_bbox_mm fig0 a1 a2 a3 title0 sub0).2.y ≤ 85 := by
  have hall : ∀ o ∈ (some ((position_figure fig0 create_base_plate calculate_layout).1)).toList ++
      placed_accessories create_base_plate calculate_layout a1 a2 a3 ++
      assembled_texts title0 sub0, xy_within_card o := by
    intro o ho
    rcases List.mem_append.1 ho with ho | ho
    · rcases List.mem_append.1 ho with ho | ho
      · rw [Option.toList_some, List.mem_singleton] at ho
        subst ho
        exact position_figure_within _ _ _
      · simp only [placed_accessories, List.mem_filterMap] at ho
        obtain ⟨p, _, hmap⟩ := ho
        obtain ⟨m, _, rfl⟩ := Option.map_eq_some'.1 hmap
        exact position_accessory_within _ _ _ _
    · exact assembled_texts_within title0 sub0 ht hs o ho
  have hjoin := foldl_box_union_within _ create_base_plate create_base_plate_within hall
  have ew : CARD_WIDTH = (130 : ℚ) := rfl
  have eh : CARD_HEIGHT = (170 : ℚ) := rfl
  obtain ⟨h1, h2, h3, h4⟩ := hjoin
  simp only [assembly_stl_bbox_mm, export_stl_bbox_mm]
  refine ⟨by linarith, by linarith, by linarith, by linarith⟩

/-- Witness for C7: a square figure, no accessories, a concrete title. -/
theorem C7_witness :
    text_obj_centered sample_title ∧
    -65 ≤ (assembly_stl_bbox_mm square_figure none none none (some sample_title) none).1.x ∧
    (assembly_stl_bbox_mm square_figure none none none (some sample_title) none).2.x ≤ 65 ∧
    -85 ≤ (assembly_stl_bbox_mm square_figure none none none (some sample_title) none).1.y ∧
    (assembly_stl_bbox_mm square_figure none none none (some sample_title) none).2.y ≤ 85 :=
  ⟨by norm_num [text_obj_centered, sample_title, world_dims],
   C7_stl_within_card_footprint square_figure none none none (some sample_title) none
     (by
       intro t htm
       simp only [Option.mem_def, Option.some.injEq] at htm
       subst htm
       norm_num [text_obj_centered, sample_title, world_dims])
     (by
       intro s2 hsm
       simp at hsm)⟩

/- ============================================================
   Claims C1 and C2.
   ============================================================ -/

/-- The accessory state at the pre-trim moment of the spec (section 4.4
step 7): after centering, fitting, translation to the cell, snapping and
sinking, before the boolean trim. -/
def acc_pre_trim_state (acc card : Obj) (layout : Layout) (i : Fin 3) : Obj :=
  let a1 := center_xy acc
  let a2 := rest_on_z0 a1
  let a3 := (uniform_fit a2 layout.acc_slot_w layout.acc_cell_h MARGIN_ACCESSORIES SIZE_BOOST_ACCESSORIES).1
  let a4 := center_xy a3
  let a5 := translate a4 ⟨layout.acc_x - a4.loc.x, layout.acc_centers_y i - a4.loc.y, 0⟩
  let a6 := snap_bottom_to_base_top a5 card 0
  sink_mesh_plane_into_card a6 (CARD_THICKNESS / 1000) MESH_PLANE_SINK_DEPTH

lemma acc_pre_trim_record_eq (acc card : Obj) (layout : Layout) (i : Fin 3) :
    acc_pre_trim_record acc card layout i =
      record_of_object (acc_pre_trim_state acc card layout i) := rfl

lemma position_accessory_eq (acc card : Obj) (layout : Layout) (i : Fin 3) :
    position_accessory acc card layout i =
      (cut_below_card
        ((trim_to_card_boundaries (acc_pre_trim_state acc card layout i)
          (CARD_WIDTH / 1000) (CARD_HEIGHT / 1000)).1)
        (CARD_THICKNESS / 1000)).1 := rfl

/-- A wide accessory mesh (aspect 2:1), which overflows the card on the
right after the boosted fit into the accessory cell. -/
def wide_accessory : Obj := ⟨⟨0, 0, 0⟩, ⟨-1, -1/2, 0⟩, ⟨1, 1/2, 1/100⟩⟩

/-- A job with a figure and one wide accessory. -/
def cex_args : MainArgs :=
  ⟨ImageFile.ok, square_figure, some wide_accessory, none, none, none, none⟩

/-- A job whose figure depth file does not exist. -/
def missing_args : MainArgs :=
  ⟨ImageFile.missing, square_figure, none, none, none, none, none⟩

/-- A job whose figure depth file exists but cannot be loaded. -/
def unreadable_args : MainArgs :=
  ⟨ImageFile.unreadable, square_figure, none, none, none, none, none⟩

set_option maxHeartbeats 1600000 in
/-- Counterexample to claim C1 as stated: in the job cex_args, the record
main passes to create_uv_print_texture for accessory 1 is the bounding box
after trimming (center x 33.37 mm, width 63.26 mm), not the pre-trim record
(center x 39 mm, width 74.52 mm): the wide accessory overflows the card and
the trim changes its bounding box, so the passed record depends on the trim. -/
theorem C1_counterexample :
    (run_main cex_args).map (fun r => r.acc_records) ≠
      Except.ok [acc_pre_trim_record wide_accessory create_base_plate calculate_layout 0] := by
  have hrm : (run_main cex_args).map (fun r => r.acc_records) =
      Except.ok [record_of_object
        (position_accessory wide_accessory create_base_plate calculate_layout 0)] := by
    simp only [run_main, cex_args, create_displaced_mesh, Except.map, Option.map_some',
      placed_accessories, List.filterMap_cons, List.filterMap_nil, Option.map_none',
      List.map_cons, List.map_nil]
  have hne : (record_of_object
        (position_accessory wide_accessory create_base_plate calculate_layout 0)).pos.1 ≠
      (acc_pre_trim_record wide_accessory create_base_plate calculate_layout 0).pos.1 := by
    norm_num [position_accessory, acc_pre_trim_record, record_of_object, center_xy, rest_on_z0,
      uniform_fit, scale_about_loc, translate, V3.add, snap_bottom_to_base_top,
      sink_mesh_plane_into_card, top_z, bottom_z, world_dims, trim_to_card_boundaries,
      trim_needed, cut_below_card, calculate_layout, create_base_plate, CARD_WIDTH,
      CARD_HEIGHT, CARD_THICKNESS, upper_ratio, figure_width_ratio, acc_height_ratio,
      MARGIN_ACCESSORIES, SIZE_BOOST_ACCESSORIES, MESH_PLANE_SINK_DEPTH, wide_accessory,
      Fin.isValue]
  rw [hrm]
  intro heq
  rw [Except.ok.injEq, List.cons.injEq] at heq
  exact hne (congrArg (fun rec => rec.pos.1) heq.1)

/-- Claim C1 as amended: the figure record passed to the compositor is the
pre-trim capture; each accessory record passed to the compositor is the
bounding box of the positioned (post-trim) accessory, and it coincides with
the pre-trim record exactly when the trim was skipped (the cut below the
card is always skipped, since sinking leaves the bottom 1 mm deep, above
the card bottom at 3 mm). -/
theorem C1_amended_records (a : MainArgs) (hfig : a.figure_depth = ImageFile.ok) :
    (run_main a).map (fun r => r.figure_pos) =
      Except.ok (some (record_of_object
        (fig_pre_trim_state a.figure_mesh create_base_plate calculate_layout)).pos) ∧
    (run_main a).map (fun r => r.figure_dims) =
      Except.ok (some (record_of_object
        (fig_pre_trim_state a.figure_mesh create_base_plate calculate_layout)).dims) ∧
    (run_main a).map (fun r => r.acc_records) =
      Except.ok ((placed_accessories create_base_plate calculate_layout
        a.acc1 a.acc2 a.acc3).map record_of_object) ∧
    (∀ (m : Obj) (i : Fin 3),
      trim_needed (acc_pre_trim_state m create_base_plate calculate_layout i)
          (CARD_WIDTH / 1000) (CARD_HEIGHT / 1000) = false →
      record_of_object (position_accessory m create_base_plate calculate_layout i) =
        acc_pre_trim_record m create_base_plate calculate_layout i) := by
  refine ⟨?_, ?_, ?_, ?_⟩
  · simp only [run_main, hfig, create_displaced_mesh, Except.map, Option.map_some',
      position_figure_record]
  · simp only [run_main, hfig, create_displaced_mesh, Except.map, Option.map_some',
      position_figure_record]
  · simp only [run_main, hfig, create_displaced_mesh, Except.map, Option.map_some']
  · intro m i htrim
    have htr : (trim_to_card_boundaries (acc_pre_trim_state m create_base_plate calculate_layout i)
        (CARD_WIDTH / 1000) (CARD_HEIGHT / 1000)).1 =
        acc_pre_trim_state m create_base_plate calculate_layout i := by
      rw [trim_to_card_boundaries, if_neg (by simp [htrim])]
    have hbot : bottom_z (acc_pre_trim_state m create_base_plate calculate_layout i) =
        -(MESH_PLANE_SINK_DEPTH / 1000) := by
      simp only [acc_pre_trim_state]
      exact bottom_z_sink _ _ _
    have hskip : (cut_below_card (acc_pre_trim_state m create_base_plate calculate_layout i)
        (CARD_THICKNESS / 1000)).1 =
        acc_pre_trim_state m create_base_plate calculate_layout i := by
      rw [cut_below_card, if_pos]
      rw [hbot]
      norm_num [MESH_PLANE_SINK_DEPTH, CARD_THICKNESS]
    rw [position_accessory_eq, htr, hskip, acc_pre_trim_record_eq]

/-- Witness for C1 at the concrete job cex_args. -/
theorem C1_witness :
    cex_args.figure_depth = ImageFile.ok ∧
    (run_main cex_args).map (fun r => r.figure_pos) =
      Except.ok (some (record_of_object
        (fig_pre_trim_state cex_args.figure_mesh create_base_plate calculate_layout)).pos) :=
  ⟨rfl, (C1_amended_records cex_args rfl).1⟩

/-- Counterexample to claim C2 as stated: with the figure depth file
missing, main still saves the blend file, exports the STL and creates the
texture; no error propagates and the job does not abort. -/
theorem C2_counterexample :
    (run_main missing_args).map
        (fun r => (r.blend_saved, r.stl_exported, r.texture_saved, r.figure_pos)) =
      Except.ok (true, true, true, none) := by
  simp only [run_main, missing_args, create_displaced_mesh, Except.map, Option.map_none']

/-- Claim C2 as amended: a missing figure depth file makes
create_displaced_mesh return None and main then completes, producing blend,
STL and texture with no figure placement record; only a depth file that
exists but fails to load raises an exception that aborts the job before any
artifact is written. -/
theorem C2_amended_depth_failure (a : MainArgs) :
    (a.figure_depth = ImageFile.missing →
      (run_main a).map (fun r =>
        (r.blend_saved, r.stl_exported, r.texture_saved, r.figure_pos, r.figure_dims)) =
        Except.ok (true, true, true, none, none)) ∧
    (a.figure_depth = ImageFile.unreadable → run_main a = Except.error ()) := by
  constructor
  · intro h
    simp only [run_main, h, create_displaced_mesh, Except.map, Option.map_none']
  · intro h
    simp only [run_main, h, create_displaced_mesh]

/-- Witness for C2 at the two concrete jobs. -/
theorem C2_witness :
    missing_args.figure_depth = ImageFile.missing ∧
    (run_main missing_args).map (fun r =>
      (r.blend_saved, r.stl_exported, r.texture_saved, r.figure_pos, r.figure_dims)) =
      Except.ok (true, true, true, none, none) ∧
    run_main unreadable_args = Except.error () :=
  ⟨rfl, (C2_amended_depth_failure missing_args).1 rfl,
   (C2_amended_depth_failure unreadable_args).2 rfl⟩

end StarterPack
